import Mathlib

/-!
Shallow embedding of the krostar/httpclient Go library, restricted to the
parts the verified claims are about: the response-builder dispatch and
body-limit engine (builder_response.go), the request-builder finalize and
execute steps (builder_request.go), and the ParsePostForm helper
(parse_form.go). Machine integers from Go (int, int64) are modeled as Int;
byte slices and streams as List Nat; Go errors as Option String / Except
String; nil pointers as Option.
-/

set_option autoImplicit false

namespace Httpclient

/-! ## Base64 (model of encoding/base64 StdEncoding, used by the code) -/

/-- The standard base64 alphabet. -/
def base64Chars : List Char :=
  "ABCDEFGHIJKLMNOPQRSTUVWXYZabcdefghijklmnopqrstuvwxyz0123456789+/".toList

/-- Character of the standard base64 alphabet at index n (n < 64). -/
def base64Char (n : Nat) : Char := base64Chars.getD n 'A'

/-- Standard base64 encoding with padding of a byte sequence, the model of
base64.StdEncoding.EncodeToString. -/
def base64Encode : List Nat → String
  | [] => ""
  | [b0] =>
    let c0 := b0 % 256
    String.mk [base64Char (c0 / 4), base64Char (c0 % 4 * 16)] ++ "=="
  | [b0, b1] =>
    let c0 := b0 % 256
    let c1 := b1 % 256
    String.mk [base64Char (c0 / 4), base64Char (c0 % 4 * 16 + c1 / 16),
      base64Char (c1 % 16 * 4)] ++ "="
  | b0 :: b1 :: b2 :: rest =>
    let c0 := b0 % 256
    let c1 := b1 % 256
    let c2 := b2 % 256
    String.mk [base64Char (c0 / 4), base64Char (c0 % 4 * 16 + c1 / 16),
      base64Char (c1 % 16 * 4 + c2 / 64), base64Char (c2 % 64)] ++ base64Encode rest

/-- Whether the first character list is a prefix of the second. -/
def charsPrefixOf : List Char → List Char → Bool
  | [], _ => true
  | _ :: _, [] => false
  | p :: ps, c :: cs => p = c && charsPrefixOf ps cs

/-- Whether pat occurs as a contiguous run inside cs. -/
def charsContains (pat : List Char) : List Char → Bool
  | [] => pat.isEmpty
  | c :: cs => charsPrefixOf pat (c :: cs) || charsContains pat cs

/-- Whether pat occurs as a substring of s (pat non-empty where used). -/
def hasSubstring (s pat : String) : Bool := charsContains pat.toList s.toList

/-! ## Data model of the captured response -/

/-- Model of the captured *http.Response together with the fields of
resp.Request that formatResponseError reads. contentLength is the int64
ContentLength field (negative means unknown); body is the byte content
remaining on the resp.Body stream. Responses produced by an http.Client
always carry a non-nil Body, so the stream is modeled as always present. -/
structure Response where
  method : String
  url : String
  statusCode : Int
  contentLength : Int
  body : List Nat
deriving Repr, DecidableEq

/-- ResponseHandler: func(*http.Response) error. none models a nil error. -/
def ResponseHandler : Type := Response → Option String

/-- ResponseStatusHandlers: the Go map[int]ResponseHandler, modeled by its
lookup function (last registration wins on update). -/
def ResponseStatusHandlers : Type := Int → Option ResponseHandler

/-- ResponseBuilder of builder_response.go: captured builder error, captured
response, body size read limit and the status handler table. -/
structure ResponseBuilder where
  builderError : Option String
  resp : Option Response
  bodySizeReadLimit : Int
  statusHandler : ResponseStatusHandlers

/-- newResponse: all fields at their Go zero value, with an empty handler
map. -/
def newResponse : ResponseBuilder :=
  { builderError := none, resp := none, bodySizeReadLimit := 0,
    statusHandler := fun _ => none }

/-- ResponseBuilder.BodySizeReadLimit setter. -/
def ResponseBuilder.BodySizeReadLimit (b : ResponseBuilder) (n : Int) : ResponseBuilder :=
  { b with bodySizeReadLimit := n }

/-- ResponseBuilder.OnStatus: map assignment statusHandler[status] = handler
(replaces any previous handler for that status). -/
def ResponseBuilder.OnStatus (b : ResponseBuilder) (status : Int) (h : ResponseHandler) : ResponseBuilder :=
  { b with statusHandler := fun s => if s = status then some h else b.statusHandler s }

/-- ResponseBuilder.OnStatuses: OnStatus for each listed status. -/
def ResponseBuilder.OnStatuses (b : ResponseBuilder) (statuses : List Int) (h : ResponseHandler) : ResponseBuilder :=
  statuses.foldl (fun acc s => acc.OnStatus s h) b

/-- ResponseBuilder.SuccessOnStatus: handler that always returns nil. -/
def ResponseBuilder.SuccessOnStatus (b : ResponseBuilder) (statuses : List Int) : ResponseBuilder :=
  b.OnStatuses statuses (fun _ => none)

/-- ResponseBuilder.ErrorOnStatus: handler that always returns the fixed
error. -/
def ResponseBuilder.ErrorOnStatus (b : ResponseBuilder) (status : Int) (e : String) : ResponseBuilder :=
  b.OnStatus status (fun _ => some e)

/-- formatResponseError: "request {METHOD} {URL} failed with status {CODE}". -/
def formatResponseError (resp : Response) : String :=
  "request " ++ resp.method ++ " " ++ resp.url ++ " failed with status " ++
    toString resp.statusCode

/-- The early-return error message of the body-limit switch. -/
def bodyTooLargeMsg (resp : Response) (contentLength readLimit : Int) : String :=
  formatResponseError resp ++ ": content length " ++ toString contentLength ++
    " is above read limit " ++ toString readLimit

/-- The unhandled-status error message, with the base64 body suffix exactly
when the drained body is non-empty. -/
def unhandledStatusMsg (resp : Response) (body : List Nat) : String :=
  formatResponseError resp ++ ": unhandled status" ++
    (if 0 < body.length then " with b64 body " ++ base64Encode body else "")

/-- The switch inside ResponseBuilder.Error deciding the effective read
limit, entered only when bodySizeReadLimit is non-negative. The error case
carries (contentLength, readLimit) of the early too-large return; on ok it
yields the effective limit (falling through the switch leaves the limit
unchanged when it equals the content length). -/
def resolveReadLimit (readLimit contentLength : Int) : Except (Int × Int) Int :=
  if contentLength < 0 then .ok readLimit
  else if readLimit = 0 then .ok contentLength
  else if readLimit > contentLength then .ok contentLength
  else if readLimit < contentLength then .error (contentLength, readLimit)
  else .ok readLimit

/-- io.NopCloser(io.LimitReader(body, n)): the stream now yields at most n
bytes (n is never negative where the code applies it; a negative n would
yield nothing, as LimitReader does). -/
def takeLimit (body : List Nat) (n : Int) : List Nat := body.take n.toNat

/-- The body-size-limit step of ResponseBuilder.Error: skipped entirely for a
negative limit; otherwise either the too-large early return, or the response
with its body stream replaced by the limited reader. -/
def limitBody (bodySizeReadLimit : Int) (r : Response) : Except (Int × Int) Response :=
  if bodySizeReadLimit ≥ 0 then
    match resolveReadLimit bodySizeReadLimit r.contentLength with
    | .error p => .error p
    | .ok lim => .ok { r with body := takeLimit r.body lim }
  else .ok r

/-- Observable outcome of one ResponseBuilder.Error invocation: the returned
error (none = nil), how many times Close ran on the captured body stream
(the deferred close), the status codes whose handler was invoked, and the
bytes the drain io.ReadAll consumed on the unhandled-status path. -/
structure ResolveResult where
  err : Option String
  closes : Nat
  invoked : List Int
  drained : List Nat
deriving Repr, DecidableEq

/-- The status-dispatch tail of ResponseBuilder.Error: exact-status handler
lookup; if present that handler alone is invoked and its result returned,
otherwise the remaining body is drained and the unhandled-status error
produced. -/
def dispatchStatus (handlers : ResponseStatusHandlers) (r : Response) (closes : Nat) : ResolveResult :=
  match handlers r.statusCode with
  | some h => { err := h r, closes := closes, invoked := [r.statusCode], drained := [] }
  | none =>
    { err := some (unhandledStatusMsg r r.body), closes := closes, invoked := [],
      drained := r.body }

/-- ResponseBuilder.Error, the terminal resolve: deferred close of the
captured body, captured-builder-error short circuit, body-limit step, then
status dispatch. Returns none exactly when the Go code would dereference a
nil resp (no builder error and no captured response), which is unreachable
for builders produced by RequestBuilder.Do. -/
def ResponseBuilder.Error (b : ResponseBuilder) : Option ResolveResult :=
  let closes := if b.resp.isSome then 1 else 0
  match b.builderError with
  | some e => some { err := some e, closes := closes, invoked := [], drained := [] }
  | none =>
    match b.resp with
    | none => none
    | some r =>
      match limitBody b.bodySizeReadLimit r with
      | .error (cl, rl) =>
        some { err := some (bodyTooLargeMsg r cl rl), closes := closes, invoked := [],
               drained := [] }
      | .ok r2 => some (dispatchStatus b.statusHandler r2 closes)

/-! ## Request builder (builder_request.go) -/

/-- Headers: the Go http.Header map, as an association list of key to value
list. -/
abbrev HttpHeader : Type := List (String × List String)

/-- Map assignment header[key] = values: replace the binding if present,
otherwise add it. -/
def setHeaderEntry (hs : HttpHeader) (key : String) (values : List String) : HttpHeader :=
  if hs.any (fun kv => kv.1 = key) then
    hs.map (fun kv => if kv.1 = key then (key, values) else kv)
  else hs ++ [(key, values)]

/-- The header-copy loop of RequestBuilder.Request: req.Header[k] = v for
every accumulated builder header. -/
def copyHeaders (dst src : HttpHeader) : HttpHeader :=
  src.foldl (fun acc kv => setHeaderEntry acc kv.1 kv.2) dst

/-- Model of the *http.Request produced by finalize: only the fields this
development observes. body none models a nil body reader. -/
structure HttpRequest where
  method : String
  url : String
  body : Option (List Nat)
  header : HttpHeader
deriving Repr, DecidableEq

/-- Doer: func Do(req) (resp, error). -/
def Doer : Type := HttpRequest → Except String Response

/-- Model of the standard-library http.NewRequestWithContext primitive
(request construction may reject a malformed method or URL); it is Go
standard library, not repository code, so it enters the model as a
parameter of Request and Do. -/
def NewReqFn : Type := String → String → Option (List Nat) → Except String HttpRequest

/-- RequestBuilder of builder_request.go. The Go field bodyToMarshal has
type any; the model is parametric in that type. url models b.url.String().
-/
structure RequestBuilder (α : Type) where
  builderError : Option String
  client : Doer
  method : String
  url : String
  header : HttpHeader
  body : Option (List Nat)
  bodyToMarshal : Option α
  bodyMarshaler : Option (α → Except String (List Nat))
  overrideFunc : Option (HttpRequest → Except String HttpRequest)

/-- RequestBuilder.SetHeader (keys used here are already in canonical MIME
form, so canonicalization is the identity). -/
def RequestBuilder.SetHeader {α : Type} (b : RequestBuilder α) (key : String) (values : List String) : RequestBuilder α :=
  { b with header := setHeaderEntry b.header key values }

/-- RequestBuilder.Send: raw body reader plus octet-stream content type. -/
def RequestBuilder.Send {α : Type} (b : RequestBuilder α) (body : List Nat) : RequestBuilder α :=
  ({ b with body := some body }).SetHeader "Content-Type" ["application/octet-stream"]

/-- RequestBuilder.SendJSON: records the object for lazy marshaling and sets
bodyMarshaler. The Go code stores json.Marshal there; the JSON encoder is
standard library, so it enters the model as the marshal parameter. -/
def RequestBuilder.SendJSON {α : Type} (b : RequestBuilder α) (obj : α) (marshal : α → Except String (List Nat)) : RequestBuilder α :=
  ({ b with bodyToMarshal := some obj, bodyMarshaler := some marshal }).SetHeader
    "Content-Type" ["application/json"]

/-- The tail of RequestBuilder.Request after the body-serialization step:
construct the request, copy headers, run the override hook. -/
def finishRequest {α : Type} (b : RequestBuilder α) (newReq : NewReqFn) :
    Except String HttpRequest × RequestBuilder α :=
  match newReq b.method b.url b.body with
  | .error e =>
    (.error ("unable to create request " ++ b.method ++ " " ++ b.url ++ ": " ++ e), b)
  | .ok req =>
    let req := { req with header := copyHeaders req.header b.header }
    match b.overrideFunc with
    | none => (.ok req, b)
    | some f =>
      match f req with
      | .error e => (.error ("unable to override request: " ++ e), b)
      | .ok req2 => (.ok req2, b)

/-- RequestBuilder.Request, the finalize step. The Go method mutates b.body
when it serializes the pending object, so the possibly-updated builder is
returned alongside the result. -/
def RequestBuilder.Request {α : Type} (b : RequestBuilder α) (newReq : NewReqFn) :
    Except String HttpRequest × RequestBuilder α :=
  match b.builderError with
  | some e => (.error e, b)
  | none =>
    match b.bodyToMarshal with
    | none => finishRequest b newReq
    | some obj =>
      if b.body.isSome then
        (.error "body to marshal is set but body is already set", b)
      else
        match b.bodyMarshaler with
        | none => (.error "body to marshal is set but body marshaller is unset", b)
        | some marshal =>
          match marshal obj with
          | .error e => (.error ("unable to marshal body: " ++ e), b)
          | .ok raw => finishRequest { b with body := some raw } newReq

/-- RequestBuilder.Do, the execute step: build the request and hand it to
the Doer, capturing any finalize or execution error into the builderError
slot of a fresh ResponseBuilder; a ResponseBuilder is returned on every
path. -/
def RequestBuilder.Do {α : Type} (b : RequestBuilder α) (newReq : NewReqFn) : ResponseBuilder :=
  match b.Request newReq with
  | (.error e, _) =>
    { newResponse with builderError := some ("unable to create request: " ++ e) }
  | (.ok req, _) =>
    match b.client req with
    | .error e =>
      { newResponse with
        builderError := some ("unable to execute " ++ req.method ++ " " ++ req.url ++
          " request: " ++ e) }
    | .ok resp => { newResponse with resp := some resp }

/-! ## ParsePostForm (parse_form.go) -/

/-- Parsed form values: the url.Values multi-map. -/
abbrev FormValues : Type := List (String × List String)

/-- The slice of *http.Request that ParsePostForm observes: the method, the
remaining unread body (as the string Go builds from the read bytes), and
the PostForm field (none models the nil map). -/
structure FormRequest where
  method : String
  body : String
  postForm : Option FormValues

/-- Whether the method is one of the conventional form-bearing methods the
standard parser handles. -/
def isFormMethod (method : String) : Bool :=
  method = "POST" || method = "PUT" || method = "PATCH"

/-- Model of the standard-library (*http.Request).ParseForm restricted to
the fields tracked here: when PostForm is nil, for POST/PUT/PATCH it reads
the whole body and parses it into PostForm (the body content type is taken
as urlencoded), and in every successful case it leaves PostForm non-nil
(an empty map when nothing was parsed); when PostForm is already non-nil it
changes nothing. parseQuery models url.ParseQuery. -/
def stdParseForm (parseQuery : String → Except String FormValues) (r : FormRequest) :
    Except String FormRequest :=
  if r.postForm.isSome then .ok r
  else if isFormMethod r.method then
    match parseQuery r.body with
    | .error e => .error e
    | .ok vs => .ok { r with body := "", postForm := some vs }
  else .ok { r with postForm := some [] }

/-- ParsePostForm: no-op when PostForm is already populated; otherwise run
the standard parser, and for non-conventional methods read the remaining
body, parse it as a urlencoded form and store the result in PostForm. -/
def ParsePostForm (parseQuery : String → Except String FormValues) (r : FormRequest) :
    Except String FormRequest :=
  if r.postForm.isSome then .ok r
  else
    match stdParseForm parseQuery r with
    | .error e => .error ("unable to parse body as form: " ++ e)
    | .ok r1 =>
      if isFormMethod r1.method then .ok r1
      else
        match parseQuery r1.body with
        | .error e => .error ("unable to parse form values from body: " ++ e)
        | .ok vs => .ok { r1 with body := "", postForm := some vs }

/-! ## Concrete fixtures used by witnesses and counterexamples -/

/-- A response with declared length 1 and ceiling 0 on the builder: the
numeric edge of the ceiling policy. -/
def c1Resp : Response :=
  { method := "GET", url := "http://host/x", statusCode := 200, contentLength := 1,
    body := [65] }

/-- Builder capturing c1Resp with the ceiling at 0. -/
def c1Builder : ResponseBuilder := { newResponse with resp := some c1Resp }

/-- Scenario B response: declared content length 14, ceiling 2. -/
def wBResp : Response :=
  { method := "GET", url := "http://host/b", statusCode := 418, contentLength := 14,
    body := [104, 101, 108, 108, 111, 32, 119, 111, 114, 108, 100, 33, 33, 33] }

/-- Builder capturing wBResp with the ceiling at 2. -/
def wBBuilder : ResponseBuilder :=
  { newResponse with resp := some wBResp, bodySizeReadLimit := 2 }

/-- Response with unknown content length and a 5-byte body. -/
def wCResp : Response :=
  { method := "GET", url := "http://host/c", statusCode := 204, contentLength := -1,
    body := [1, 2, 3, 4, 5] }

/-- Builder capturing wCResp with the ceiling at 2. -/
def wCBuilder : ResponseBuilder :=
  { newResponse with resp := some wCResp, bodySizeReadLimit := 2 }

/-- Response with status 200 used for the dispatch witness. -/
def wDispResp : Response :=
  { method := "GET", url := "http://host/h", statusCode := 200, contentLength := -1,
    body := [9] }

/-- Builder with a nil-returning handler at 200, an error handler at 404,
and the limit check disabled. -/
def wDispBuilder : ResponseBuilder :=
  ((({ newResponse with
      resp := some wDispResp
      bodySizeReadLimit := -1 }).OnStatus 200 (fun _ => none)).OnStatus 404
    (fun _ => some "not found"))

/-- Response with status 500 matching none of the registered handlers. -/
def wMissResp : Response :=
  { method := "GET"
    url := "http://host/m"
    statusCode := 500
    contentLength := -1
    body := [] }

/-- Builder with handlers registered only for 200 and 404, capturing a 500
response. -/
def wMissBuilder : ResponseBuilder :=
  ((({ newResponse with
      resp := some wMissResp
      bodySizeReadLimit := -1 }).OnStatus 200 (fun _ => none)).OnStatus 404
    (fun _ => some "not found"))

/-- Scenario D response: status 500 with body "hello world!". -/
def wDResp : Response :=
  { method := "GET", url := "http://host/d", statusCode := 500, contentLength := -1,
    body := [104, 101, 108, 108, 111, 32, 119, 111, 114, 108, 100, 33] }

/-- Builder capturing wDResp with no handlers and the limit disabled. -/
def wDBuilder : ResponseBuilder :=
  { newResponse with resp := some wDResp, bodySizeReadLimit := -1 }

/-- Scenario E response: status 500 with an empty body. -/
def scenarioEResp : Response :=
  { method := "GET", url := "http://host/e", statusCode := 500, contentLength := 0,
    body := [] }

/-- Builder capturing scenarioEResp with no handlers. -/
def scenarioE : ResponseBuilder := { newResponse with resp := some scenarioEResp }

/-- Builder holding both a captured response and a captured builder error:
the short-circuit path still owns a body stream to close. -/
def wErrBuilder : ResponseBuilder :=
  { newResponse with resp := some wDResp, builderError := some "boom" }

/-- Fresh builder capture of a response with unknown length, keeping the
default (zero) read limit. -/
def wFreshResp : Response :=
  { method := "GET"
    url := "http://host/f"
    statusCode := 200
    contentLength := -1
    body := [7, 8, 9] }

/-- Fresh builder capturing wFreshResp with the default (zero) read limit. -/
def wFreshBuilder : ResponseBuilder := { newResponse with resp := some wFreshResp }

/-- Request-construction model that always succeeds. -/
def okNewReq : NewReqFn :=
  fun m u b => .ok { method := m, url := u, body := b, header := [] }

/-- A Doer that always fails. -/
def failDoer : Doer := fun _ => .error "connection refused"

/-- Marshaler used by request-side witnesses. -/
def natMarshal : Nat → Except String (List Nat) := fun n => .ok [n % 256]

/-- Base request builder for witnesses: no error, no body, no pending
object. -/
def baseReqBuilder : RequestBuilder Nat :=
  { builderError := none, client := failDoer, method := "GET", url := "http://host/r",
    header := [], body := none, bodyToMarshal := none, bodyMarshaler := none,
    overrideFunc := none }

/-- Builder with both body sources configured. -/
def conflictedBuilder : RequestBuilder Nat := (baseReqBuilder.Send [1]).SendJSON 7 natMarshal

/-- Builder with only a pending object to serialize. -/
def pendingJsonBuilder : RequestBuilder Nat := baseReqBuilder.SendJSON 7 natMarshal

/-- Model of url.ParseQuery used by form witnesses: records the raw body as
a single value. -/
def recordQuery : String → Except String FormValues := fun s => .ok [("raw", [s])]

/-- A DELETE request with a form-encoded body and PostForm not yet
populated. -/
def wFormReq : FormRequest := { method := "DELETE", body := "a=b", postForm := none }

/-- The request wFormReq after one successful ParsePostForm run. -/
def wFormReqParsed : FormRequest :=
  { method := "DELETE", body := "", postForm := some [("raw", ["a=b"])] }

/-! ## Helper lemmas -/

/-- Resolve on a builder holding a captured builder error returns it
unchanged, closing the body stream when a response was captured. -/
theorem Error_of_builderError (b : ResponseBuilder) (e : String)
    (h : b.builderError = some e) :
    b.Error = some { err := some e
                     closes := if b.resp.isSome then 1 else 0
                     invoked := []
                     drained := [] } := by
  unfold ResponseBuilder.Error
  rw [h]

/-- Resolve on an error-free builder with a captured response and a failing
limit step returns the too-large error. -/
theorem Error_of_limit_error (b : ResponseBuilder) (r : Response) (cl rl : Int)
    (hok : b.builderError = none) (hresp : b.resp = some r)
    (hlim : limitBody b.bodySizeReadLimit r = .error (cl, rl)) :
    b.Error = some { err := some (bodyTooLargeMsg r cl rl)
                     closes := 1
                     invoked := []
                     drained := [] } := by
  simp only [ResponseBuilder.Error, hok, hresp, hlim, Option.isSome_some, if_true]

/-- Resolve on an error-free builder with a captured response and a
succeeding limit step dispatches on the limited response. -/
theorem Error_of_limit_ok (b : ResponseBuilder) (r r2 : Response)
    (hok : b.builderError = none) (hresp : b.resp = some r)
    (hlim : limitBody b.bodySizeReadLimit r = .ok r2) :
    b.Error = some (dispatchStatus b.statusHandler r2 1) := by
  simp only [ResponseBuilder.Error, hok, hresp, hlim, Option.isSome_some, if_true]

/-- A negative limit skips the limit step entirely. -/
theorem limitBody_neg (n : Int) (r : Response) (h : n < 0) : limitBody n r = .ok r := by
  unfold limitBody
  rw [if_neg (by omega)]

/-- With a non-negative limit and unknown content length, the limit step
caps the stream at the configured limit. -/
theorem limitBody_unknown (n : Int) (r : Response) (hn : 0 ≤ n)
    (hd : r.contentLength < 0) :
    limitBody n r = .ok { r with body := takeLimit r.body n } := by
  unfold limitBody resolveReadLimit
  rw [if_pos (by omega), if_pos (by omega)]

/-- With limit 0 and a known content length, the effective limit is the
content length. -/
theorem limitBody_zero (r : Response) (hd : 0 ≤ r.contentLength) :
    limitBody 0 r = .ok { r with body := takeLimit r.body r.contentLength } := by
  unfold limitBody resolveReadLimit
  rw [if_pos (by omega), if_neg (by omega), if_pos rfl]

/-- With a limit above the known content length, the effective limit
shrinks to the content length. -/
theorem limitBody_above (n : Int) (r : Response) (hd : 0 ≤ r.contentLength)
    (h : r.contentLength < n) :
    limitBody n r = .ok { r with body := takeLimit r.body r.contentLength } := by
  unfold limitBody resolveReadLimit
  rw [if_pos (by omega), if_neg (by omega), if_neg (by omega), if_pos (by omega)]

/-- With a positive limit below the known content length, the limit step
fails with the (contentLength, readLimit) pair of the too-large message. -/
theorem limitBody_too_large (n : Int) (r : Response) (h0 : 0 < n)
    (h : n < r.contentLength) :
    limitBody n r = .error (r.contentLength, n) := by
  unfold limitBody resolveReadLimit
  rw [if_pos (by omega), if_neg (by omega), if_neg (by omega), if_neg (by omega),
    if_pos (by omega)]

/-- The limit step only touches the body stream. -/
theorem limitBody_fields (n : Int) (r r2 : Response)
    (h : limitBody n r = .ok r2) :
    r2.method = r.method ∧ r2.url = r.url ∧ r2.statusCode = r.statusCode ∧
      r2.contentLength = r.contentLength := by
  unfold limitBody at h
  by_cases hn : n ≥ 0
  · rw [if_pos hn] at h
    cases hlim : resolveReadLimit n r.contentLength with
    | error p => rw [hlim] at h; cases h
    | ok lim =>
      rw [hlim] at h
      cases h
      exact ⟨rfl, rfl, rfl, rfl⟩
  · rw [if_neg hn] at h
    cases h
    exact ⟨rfl, rfl, rfl, rfl⟩

/-! ## Claims -/

/-- C1 (amended): body-size ceiling policy of resolve. For an error-free
builder whose captured response declares a non-negative content length: a
positive ceiling below the declared length makes resolve return the
too-large error reporting both values, before any body read or handler
dispatch; a zero ceiling makes the effective read limit the declared
length; a ceiling above the declared length shrinks the effective limit to
the declared length; a negative ceiling applies no check or limit at all. -/
theorem c1_body_size_ceiling_policy (b : ResponseBuilder) (r : Response)
    (hresp : b.resp = some r) (hok : b.builderError = none)
    (hd : 0 ≤ r.contentLength) :
    (0 < b.bodySizeReadLimit → b.bodySizeReadLimit < r.contentLength →
      b.Error = some { err := some (bodyTooLargeMsg r r.contentLength b.bodySizeReadLimit)
                       closes := 1
                       invoked := []
                       drained := [] }) ∧
    (b.bodySizeReadLimit = 0 →
      limitBody b.bodySizeReadLimit r =
        .ok { r with body := takeLimit r.body r.contentLength } ∧
      b.Error = some (dispatchStatus b.statusHandler
        { r with body := takeLimit r.body r.contentLength } 1)) ∧
    (r.contentLength < b.bodySizeReadLimit →
      limitBody b.bodySizeReadLimit r =
        .ok { r with body := takeLimit r.body r.contentLength } ∧
      b.Error = some (dispatchStatus b.statusHandler
        { r with body := takeLimit r.body r.contentLength } 1)) ∧
    (b.bodySizeReadLimit < 0 → b.Error = some (dispatchStatus b.statusHandler r 1)) := by
  refine ⟨fun h1 h2 => ?_, fun h1 => ?_, fun h1 => ?_, fun h1 => ?_⟩
  · exact Error_of_limit_error b r r.contentLength b.bodySizeReadLimit hok hresp
      (limitBody_too_large _ r h1 h2)
  · have hlim : limitBody b.bodySizeReadLimit r =
        .ok { r with body := takeLimit r.body r.contentLength } := by
      rw [h1]
      exact limitBody_zero r hd
    exact ⟨hlim, Error_of_limit_ok b r _ hok hresp hlim⟩
  · have hlim := limitBody_above b.bodySizeReadLimit r hd h1
    exact ⟨hlim, Error_of_limit_ok b r _ hok hresp hlim⟩
  · exact Error_of_limit_ok b r r hok hresp (limitBody_neg _ r h1)

/-- C1 counterexample: with ceiling 0 and declared length 1 (so ceiling
strictly below declared length), resolve does not fail with the too-large
error: the zero-ceiling rule wins, the effective limit becomes the declared
length and resolution proceeds to the unhandled-status error. -/
theorem c1_counterexample :
    0 ≤ c1Builder.bodySizeReadLimit ∧
    0 ≤ c1Resp.contentLength ∧
    c1Builder.bodySizeReadLimit < c1Resp.contentLength ∧
    c1Builder.resp = some c1Resp ∧
    c1Builder.builderError = none ∧
    c1Builder.Error = some { err := some "request GET http://host/x failed with status 200: unhandled status with b64 body QQ=="
                             closes := 1
                             invoked := []
                             drained := [65] } ∧
    hasSubstring
      "request GET http://host/x failed with status 200: unhandled status with b64 body QQ=="
      "is above read limit" = false := by
  decide

/-- C1 witness: scenario B — ceiling 2, declared length 14 — resolve fails
with the message containing "content length 14 is above read limit 2",
without invoking a handler or reading a byte. -/
theorem c1_witness :
    wBBuilder.Error = some { err := some "request GET http://host/b failed with status 418: content length 14 is above read limit 2"
                             closes := 1
                             invoked := []
                             drained := [] } := by
  have h := (c1_body_size_ceiling_policy wBBuilder wBResp rfl rfl (by decide)).1
    (by decide) (by decide)
  rw [h]
  decide

/-- C2: for a captured response whose declared content length is unknown
(negative) and a non-negative ceiling, resolve never raises the pre-check
too-large error — it proceeds directly to dispatch — and the body stream
handed to handlers (or drained for the unhandled-status error) is the
capped stream, which yields at most ceiling-many bytes. -/
theorem c2_unknown_length_capped (b : ResponseBuilder) (r : Response)
    (hresp : b.resp = some r) (hok : b.builderError = none)
    (hd : r.contentLength < 0) (hc : 0 ≤ b.bodySizeReadLimit) :
    limitBody b.bodySizeReadLimit r =
      .ok { r with body := takeLimit r.body b.bodySizeReadLimit } ∧
    b.Error = some (dispatchStatus b.statusHandler
      { r with body := takeLimit r.body b.bodySizeReadLimit } 1) ∧
    ((takeLimit r.body b.bodySizeReadLimit).length : Int) ≤ b.bodySizeReadLimit := by
  have hlim := limitBody_unknown b.bodySizeReadLimit r hc hd
  refine ⟨hlim, Error_of_limit_ok b r _ hok hresp hlim, ?_⟩
  have h1 : (r.body.take b.bodySizeReadLimit.toNat).length ≤ b.bodySizeReadLimit.toNat :=
    by simp [List.length_take]
  unfold takeLimit
  omega

/-- C2 witness: unknown content length, ceiling 2, a 5-byte body: resolve
raises no pre-check error and the drained stream holds only the first 2
bytes. -/
theorem c2_witness :
    wCBuilder.Error = some { err := some "request GET http://host/c failed with status 204: unhandled status with b64 body AQI="
                             closes := 1
                             invoked := []
                             drained := [1, 2] } := by
  have h := (c2_unknown_length_capped wCBuilder wCResp rfl rfl (by decide) (by decide)).2.1
  rw [h]
  decide

/-- C9: with the default (zero) read limit of a freshly built
ResponseBuilder and an unknown (negative) declared content length, the
unknown-length case of the switch is tested first, so the zero limit is
kept as-is: the installed reader is limited to 0 bytes and every handler
and the unhandled-status drain observe an empty body. -/
theorem c9_default_zero_limit_unknown_length (b : ResponseBuilder) (r : Response)
    (hresp : b.resp = some r) (hok : b.builderError = none)
    (hzero : b.bodySizeReadLimit = 0) (hd : r.contentLength < 0) :
    newResponse.bodySizeReadLimit = 0 ∧
    limitBody b.bodySizeReadLimit r = .ok { r with body := [] } ∧
    b.Error = some (dispatchStatus b.statusHandler { r with body := [] } 1) := by
  have hlim : limitBody b.bodySizeReadLimit r = .ok { r with body := [] } := by
    rw [hzero]
    have h := limitBody_unknown 0 r le_rfl hd
    simpa [takeLimit] using h
  exact ⟨rfl, hlim, Error_of_limit_ok b r _ hok hresp hlim⟩

/-- C9 witness: a fresh capture of an unknown-length response with a 3-byte
stream resolves to the unhandled-status error with no b64 suffix, the drain
having observed an empty body. -/
theorem c9_witness :
    wFreshBuilder.Error = some { err := some "request GET http://host/f failed with status 200: unhandled status"
                                 closes := 1
                                 invoked := []
                                 drained := [] } := by
  have h := (c9_default_zero_limit_unknown_length wFreshBuilder wFreshResp rfl rfl rfl
    (by decide)).2.2
  rw [h]
  decide

/-- C3: status dispatch at resolve. Once the limit step has produced the
limited response, if a handler is registered for the exact numeric status
code of the captured response, resolve invokes exactly that handler and no
other and returns its result (nil or error) as the terminal result; if no
handler is registered for that code, resolve invokes no handler and
returns the unhandled-status error. -/
theorem c3_status_dispatch (b : ResponseBuilder) (r r2 : Response) (h : ResponseHandler)
    (hresp : b.resp = some r) (hok : b.builderError = none)
    (hlim : limitBody b.bodySizeReadLimit r = .ok r2) :
    (b.statusHandler r.statusCode = some h →
      b.Error = some { err := h r2
                       closes := 1
                       invoked := [r.statusCode]
                       drained := [] }) ∧
    (b.statusHandler r.statusCode = none →
      b.Error = some { err := some (unhandledStatusMsg r2 r2.body)
                       closes := 1
                       invoked := []
                       drained := r2.body }) := by
  have hsc : r2.statusCode = r.statusCode := (limitBody_fields _ r r2 hlim).2.2.1
  have he := Error_of_limit_ok b r r2 hok hresp hlim
  constructor
  · intro hh
    rw [he]
    unfold dispatchStatus
    rw [hsc, hh]
  · intro hh
    rw [he]
    unfold dispatchStatus
    rw [hsc, hh]

/-- C3 witness: with handlers registered for 200 and 404, a 200 response
invokes exactly the 200 handler (whose nil result is the terminal result),
and a 500 response matching neither handler produces the unhandled-status
error with no handler invoked. -/
theorem c3_witness :
    wDispBuilder.Error = some { err := none
                                closes := 1
                                invoked := [200]
                                drained := [] } ∧
    wMissBuilder.Error = some { err := some "request GET http://host/m failed with status 500: unhandled status"
                                closes := 1
                                invoked := []
                                drained := [] } := by
  constructor
  · have h := (c3_status_dispatch wDispBuilder wDispResp wDispResp (fun _ => none) rfl rfl
      (limitBody_neg _ _ (by decide))).1 rfl
    rw [h]
    rfl
  · have h := (c3_status_dispatch wMissBuilder wMissResp wMissResp (fun _ => none) rfl rfl
      (limitBody_neg _ _ (by decide))).2 rfl
    rw [h]
    decide

/-- C4: the unhandled-status error message is exactly
"request {METHOD} {URL} failed with status {CODE}: unhandled status",
suffixed with " with b64 body {BASE64}" of the drained body exactly when
that body is non-empty; on the concrete empty-body scenario the message
carries no "b64 body" substring. -/
theorem c4_unhandled_status_message (b : ResponseBuilder) (r r2 : Response)
    (hresp : b.resp = some r) (hok : b.builderError = none)
    (hlim : limitBody b.bodySizeReadLimit r = .ok r2)
    (hnone : b.statusHandler r.statusCode = none) :
    b.Error = some { err := some ("request " ++ r.method ++ " " ++ r.url ++
                       " failed with status " ++ toString r.statusCode ++
                       ": unhandled status" ++
                       (if 0 < r2.body.length then
                         " with b64 body " ++ base64Encode r2.body
                       else ""))
                     closes := 1
                     invoked := []
                     drained := r2.body } ∧
    scenarioE.Error = some { err := some "request GET http://host/e failed with status 500: unhandled status"
                             closes := 1
                             invoked := []
                             drained := [] } ∧
    hasSubstring "request GET http://host/e failed with status 500: unhandled status"
      "b64 body" = false := by
  obtain ⟨hm, hu, hs, _⟩ := limitBody_fields _ r r2 hlim
  have he := Error_of_limit_ok b r r2 hok hresp hlim
  refine ⟨?_, by decide, by decide⟩
  rw [he]
  unfold dispatchStatus
  rw [hs, hnone]
  unfold unhandledStatusMsg formatResponseError
  rw [hm, hu, hs]

/-- C4 witness: scenario D — status 500, body "hello world!", no matching
handler — resolve fails with the exact message carrying the standard
base64 encoding of the body. -/
theorem c4_witness :
    wDBuilder.Error = some { err := some "request GET http://host/d failed with status 500: unhandled status with b64 body aGVsbG8gd29ybGQh"
                             closes := 1
                             invoked := []
                             drained := [104, 101, 108, 108, 111, 32, 119, 111, 114, 108, 100, 33] } := by
  have h := (c4_unhandled_status_message wDBuilder wDResp wDResp rfl rfl
    (limitBody_neg _ _ (by decide)) rfl).1
  rw [h]
  decide

/-- C7: on every resolve invocation over a builder holding a captured
response, the captured body stream is closed exactly once — resolve always
produces a result there and its close count is 1 on every path, including
the too-large branch and the short circuit on a captured construction
error. -/
theorem c7_body_closed_exactly_once (b : ResponseBuilder) (r : Response)
    (hresp : b.resp = some r) :
    (b.Error).map ResolveResult.closes = some 1 := by
  cases hbe : b.builderError with
  | some e =>
    rw [Error_of_builderError b e hbe, hresp]
    rfl
  | none =>
    cases hlim : limitBody b.bodySizeReadLimit r with
    | error p =>
      obtain ⟨cl, rl⟩ := p
      rw [Error_of_limit_error b r cl rl hbe hresp hlim]
      rfl
    | ok r2 =>
      rw [Error_of_limit_ok b r r2 hbe hresp hlim]
      unfold dispatchStatus
      cases b.statusHandler r2.statusCode <;> rfl

/-- C7 witness: a builder holding both a captured response and a captured
construction error still closes the body stream exactly once while
short-circuiting. -/
theorem c7_witness : (wErrBuilder.Error).map ResolveResult.closes = some 1 :=
  c7_body_closed_exactly_once wErrBuilder wDResp rfl

/-- Finalize on an error-free builder with both body sources configured
fails with the body-conflict error, leaving the builder untouched. -/
theorem Request_body_conflict {α : Type} (b : RequestBuilder α) (newReq : NewReqFn)
    (hok : b.builderError = none) (hobj : b.bodyToMarshal.isSome = true)
    (hbody : b.body.isSome = true) :
    b.Request newReq = (.error "body to marshal is set but body is already set", b) := by
  obtain ⟨obj, hobjeq⟩ := Option.isSome_iff_exists.mp hobj
  simp only [RequestBuilder.Request, hok, hobjeq, hbody, if_true]

/-- C5: the execute step always returns a ResponseBuilder, capturing any
finalize error or Doer execution error into its construction-error slot
(never propagating it synchronously); and whenever that slot is non-nil,
resolve returns exactly the captured error, skipping the body-limit step
and invoking no status handler. -/
theorem c5_deferred_error_surfacing {α : Type} (b : RequestBuilder α) (newReq : NewReqFn) :
    (∀ e, (b.Request newReq).1 = .error e →
      b.Do newReq =
        { newResponse with builderError := some ("unable to create request: " ++ e) }) ∧
    (∀ req e, (b.Request newReq).1 = .ok req → b.client req = .error e →
      b.Do newReq = { newResponse with builderError := some ("unable to execute " ++
        req.method ++ " " ++ req.url ++ " request: " ++ e) }) ∧
    (∀ req resp, (b.Request newReq).1 = .ok req → b.client req = .ok resp →
      b.Do newReq = { newResponse with resp := some resp }) ∧
    (∀ (rb : ResponseBuilder) (e : String), rb.builderError = some e →
      rb.Error = some { err := some e
                        closes := if rb.resp.isSome then 1 else 0
                        invoked := []
                        drained := [] }) := by
  refine ⟨?_, ?_, ?_, ?_⟩
  · intro e he
    unfold RequestBuilder.Do
    cases hreq : b.Request newReq with
    | mk res b2 =>
      rw [hreq] at he
      have he2 : res = Except.error e := he
      subst he2
      rfl
  · intro req e hreq2 hcl
    unfold RequestBuilder.Do
    cases hreq : b.Request newReq with
    | mk res b2 =>
      rw [hreq] at hreq2
      have he2 : res = Except.ok req := hreq2
      subst he2
      simp only [hcl]
  · intro req resp hreq2 hcl
    unfold RequestBuilder.Do
    cases hreq : b.Request newReq with
    | mk res b2 =>
      rw [hreq] at hreq2
      have he2 : res = Except.ok req := hreq2
      subst he2
      simp only [hcl]
  · intro rb e h
    exact Error_of_builderError rb e h

/-- C5 witness: a finalize failure (conflicting body sources) and an
execution failure (refusing Doer) are both captured, never thrown; and a
builder whose slot holds "boom" resolves to exactly that error with no
handler invoked. -/
theorem c5_witness :
    conflictedBuilder.Do okNewReq = { newResponse with
      builderError := some "unable to create request: body to marshal is set but body is already set" } ∧
    baseReqBuilder.Do okNewReq = { newResponse with
      builderError := some "unable to execute GET http://host/r request: connection refused" } ∧
    wErrBuilder.Error = some { err := some "boom"
                               closes := 1
                               invoked := []
                               drained := [] } := by
  refine ⟨?_, ?_, ?_⟩
  · exact (c5_deferred_error_surfacing conflictedBuilder okNewReq).1 _ rfl
  · exact (c5_deferred_error_surfacing baseReqBuilder okNewReq).2.1
      ⟨"GET", "http://host/r", none, []⟩ "connection refused" rfl rfl
  · have h := (c5_deferred_error_surfacing baseReqBuilder okNewReq).2.2.2 wErrBuilder
      "boom" rfl
    rw [h]
    rfl

/-- C6: configuring both a raw body and an object pending serialization —
in either order — makes finalize fail with the body-conflict error and
return no request; the check fires for every builder with both sources
set, regardless of the marshaler slot (so it precedes the
missing-serializer check and the serializer invocation). -/
theorem c6_body_conflict {α : Type} (b : RequestBuilder α) (newReq : NewReqFn)
    (hok : b.builderError = none) :
    (b.bodyToMarshal.isSome = true → b.body.isSome = true →
      b.Request newReq = (.error "body to marshal is set but body is already set", b)) ∧
    (∀ (raw : List Nat) (obj : α) (marshal : α → Except String (List Nat)),
      ((b.Send raw).SendJSON obj marshal).Request newReq =
        (.error "body to marshal is set but body is already set",
          (b.Send raw).SendJSON obj marshal) ∧
      ((b.SendJSON obj marshal).Send raw).Request newReq =
        (.error "body to marshal is set but body is already set",
          (b.SendJSON obj marshal).Send raw)) := by
  refine ⟨fun h1 h2 => Request_body_conflict b newReq hok h1 h2,
    fun raw obj marshal => ⟨?_, ?_⟩⟩
  · exact Request_body_conflict ((b.Send raw).SendJSON obj marshal) newReq hok rfl rfl
  · exact Request_body_conflict ((b.SendJSON obj marshal).Send raw) newReq hok rfl rfl

/-- C6 witness: a Nat-bodied builder configured raw-then-JSON and
JSON-then-raw fails finalize both ways with the body-conflict error. -/
theorem c6_witness :
    (conflictedBuilder.Request okNewReq).1 =
      .error "body to marshal is set but body is already set" ∧
    (((baseReqBuilder.SendJSON 7 natMarshal).Send [1]).Request okNewReq).1 =
      .error "body to marshal is set but body is already set" := by
  constructor
  · exact congrArg Prod.fst ((c6_body_conflict baseReqBuilder okNewReq rfl).2 [1] 7
      natMarshal).1
  · exact congrArg Prod.fst ((c6_body_conflict baseReqBuilder okNewReq rfl).2 [1] 7
      natMarshal).2

/-- C10: finalize is not idempotent with a pending serialization object —
a first successful Request stores the serialized bytes into the raw-body
slot while leaving the pending object set, so a second Request on the
updated builder fails with the body-conflict error. -/
theorem c10_finalize_not_idempotent {α : Type} (b : RequestBuilder α) (newReq : NewReqFn)
    (obj : α) (marshal : α → Except String (List Nat)) (raw : List Nat)
    (req : HttpRequest)
    (hok : b.builderError = none) (hobj : b.bodyToMarshal = some obj)
    (hm : b.bodyMarshaler = some marshal) (hbody : b.body = none)
    (hmar : marshal obj = .ok raw) (hov : b.overrideFunc = none)
    (hreq : newReq b.method b.url (some raw) = .ok req) :
    b.Request newReq = (.ok { req with header := copyHeaders req.header b.header },
      { b with body := some raw }) ∧
    (({ b with body := some raw } : RequestBuilder α).Request newReq).1 =
      .error "body to marshal is set but body is already set" := by
  constructor
  · simp only [RequestBuilder.Request, finishRequest, hok, hobj, hbody, hm, hmar, hreq,
      hov, Option.isSome_none, Bool.false_eq_true, if_false]
  · refine congrArg Prod.fst
      (Request_body_conflict ({ b with body := some raw } : RequestBuilder α) newReq
        hok ?_ rfl)
    simp [hobj]

/-- C10 witness: a builder holding only an object pending serialization
finalizes once successfully, and a second finalize on the updated builder
fails with the body-conflict error. -/
theorem c10_witness :
    (pendingJsonBuilder.Request okNewReq).1 = .ok { method := "GET"
                                                    url := "http://host/r"
                                                    body := some [7]
                                                    header := [("Content-Type", ["application/json"])] } ∧
    ((pendingJsonBuilder.Request okNewReq).2.Request okNewReq).1 =
      .error "body to marshal is set but body is already set" := by
  have h := c10_finalize_not_idempotent pendingJsonBuilder okNewReq 7 natMarshal [7]
    ⟨"GET", "http://host/r", some [7], []⟩ rfl rfl rfl rfl rfl rfl rfl
  constructor
  · rw [congrArg Prod.fst h.1]
    rfl
  · exact h.2

/-- The standard form parser leaves PostForm populated on every successful
run. -/
theorem stdParseForm_postForm (parseQuery : String → Except String FormValues)
    (r r1 : FormRequest) (h : stdParseForm parseQuery r = .ok r1) :
    r1.postForm.isSome = true := by
  unfold stdParseForm at h
  by_cases hq : r.postForm.isSome = true
  · rw [if_pos hq] at h
    injection h with h2
    subst h2
    exact hq
  · rw [if_neg hq] at h
    by_cases hfm : isFormMethod r.method = true
    · rw [if_pos hfm] at h
      cases hpq : parseQuery r.body with
      | error e => rw [hpq] at h; cases h
      | ok vs => rw [hpq] at h; injection h with h2; subst h2; rfl
    · rw [if_neg hfm] at h
      injection h with h2
      subst h2
      rfl

/-- C8: ParsePostForm is idempotent — when the parsed-form-values field is
already populated the call is a no-op returning no error, and after any
successful run a second invocation returns the same request, hence the
same parsed-form-value set, with no error. -/
theorem c8_parse_post_form_idempotent (parseQuery : String → Except String FormValues)
    (r r2 : FormRequest) :
    (r.postForm.isSome = true → ParsePostForm parseQuery r = .ok r) ∧
    (ParsePostForm parseQuery r = .ok r2 → ParsePostForm parseQuery r2 = .ok r2) := by
  have noop : ∀ q : FormRequest, q.postForm.isSome = true →
      ParsePostForm parseQuery q = .ok q := by
    intro q hq
    unfold ParsePostForm
    rw [if_pos hq]
  refine ⟨noop r, fun hrun => ?_⟩
  have h2 : r2.postForm.isSome = true := by
    unfold ParsePostForm at hrun
    by_cases hq : r.postForm.isSome = true
    · rw [if_pos hq] at hrun
      injection hrun with h3
      subst h3
      exact hq
    · rw [if_neg hq] at hrun
      cases hstd : stdParseForm parseQuery r with
      | error e => rw [hstd] at hrun; simp at hrun
      | ok r1 =>
        rw [hstd] at hrun
        dsimp only at hrun
        by_cases hfm : isFormMethod r1.method = true
        · rw [if_pos hfm] at hrun
          injection hrun with h3
          subst h3
          exact stdParseForm_postForm parseQuery r r1 hstd
        · rw [if_neg hfm] at hrun
          cases hpq : parseQuery r1.body with
          | error e => rw [hpq] at hrun; cases hrun
          | ok vs => rw [hpq] at hrun; injection hrun with h3; subst h3; rfl
  exact noop r2 h2

/-- C8 witness: a DELETE request with body "a=b" parses once into a
populated PostForm, and a second invocation is a no-op returning the same
parsed-form-value set. -/
theorem c8_witness :
    ParsePostForm recordQuery wFormReq = .ok wFormReqParsed ∧
    ParsePostForm recordQuery wFormReqParsed = .ok wFormReqParsed := by
  have h1 : ParsePostForm recordQuery wFormReq = .ok wFormReqParsed := rfl
  exact ⟨h1, (c8_parse_post_form_idempotent recordQuery wFormReq wFormReqParsed).2 h1⟩

end Httpclient
